import Mathlib

/-!
Verification development for the BeliefForgeScout selection-and-generation
pipeline.  The Python sources under `src/` are shallowly embedded: pure
functions become Lean functions over `List Char`, `ℕ`, `ℚ`; the database
history becomes an explicit list of records; the HTTP layer becomes an
oracle of network outcomes; exceptions become `Except` values.  Timestamps
are rationals measured in hours.
-/

/-! ## Basic text utilities (models of the Python `str` operations used) -/

/-- Model of Python `str.lower` (per-character, adequate for the ASCII
configuration strings used throughout the repository). -/
def lowerL (l : List Char) : List Char := l.map Char.toLower

/-- `subAt p l` holds when `p` is an initial segment of `l`
(model of matching a literal at the current position). -/
def subAt : List Char → List Char → Bool
  | [], _ => true
  | _ :: _, [] => false
  | a :: as, b :: bs => a == b && subAt as bs

/-- `subIn p l` holds when `p` occurs contiguously inside `l`
(model of the Python substring test `p in l`). -/
def subIn (p : List Char) : List Char → Bool
  | [] => p.isEmpty
  | b :: bs => subAt p (b :: bs) || subIn p bs

/-- Count occurrences of a single character (model of `str.count(c)`). -/
def countChar (c : Char) (l : List Char) : Nat :=
  l.countP (fun d => d == c)

/-- Model of Python `str.count(" - ")`: non-overlapping occurrences of the
three-character pattern space, hyphen, space. -/
def countSpacedHyphen : List Char → Nat
  | x :: y :: z :: rest =>
      if x == ' ' && y == '-' && z == ' ' then 1 + countSpacedHyphen rest
      else countSpacedHyphen (y :: z :: rest)
  | _ => 0
termination_by l => l.length

/-- Python `\w` word characters (ASCII approximation: alphanumerics and
underscore). -/
def isWordChar (c : Char) : Bool := c.isAlphanum || c == '_'

/-- Split a character list into its maximal runs of word characters
(the `\b`-delimited words a Python regex sees). -/
def wordRuns : List Char → List Char → List (List Char)
  | [], acc => if acc.isEmpty then [] else [acc.reverse]
  | c :: cs, acc =>
      if isWordChar c then wordRuns cs (c :: acc)
      else if acc.isEmpty then wordRuns cs []
      else acc.reverse :: wordRuns cs []

/-- The maximal word runs of a text. -/
def wordsOf (l : List Char) : List (List Char) := wordRuns l []

/-- `endsIn suf l` holds when `l` ends with `suf`. -/
def endsIn (suf l : List Char) : Bool := subAt suf.reverse l.reverse

/-- Consume a literal from the head of a list, returning the rest. -/
def consumeLit : List Char → List Char → Option (List Char)
  | [], l => some l
  | _ :: _, [] => none
  | a :: as, b :: bs => if a == b then consumeLit as bs else none

/-- Word boundary on the left: start of text or a non-word character. -/
def leftBoundary : Option Char → Bool
  | none => true
  | some c => !isWordChar c

/-- A `\b p \b` regex match somewhere in the text (both `p` and the text
already lowercased; `p` starts and ends with word characters, as every
salesy pattern in the source does). -/
def boundedIn (p : List Char) : Option Char → List Char → Bool
  | _, [] => false
  | prev, c :: cs =>
      (leftBoundary prev &&
        match consumeLit p (c :: cs) with
        | none => false
        | some [] => true
        | some (d :: _) => !isWordChar d) ||
      boundedIn p (some c) cs

/-- Remove duplicates keeping the first occurrence (deterministic model of
the Python `list(set(xs))` de-duplication). -/
def dedupFirst : List String → List String
  | [] => []
  | x :: xs => x :: (dedupFirst xs).filter (fun y => !(y == x))

/-! ## Compliance Validator (`src/voice/validator.py`) -/

/-- Platforms recognised by the pipeline (`src/core/models.py`). -/
inductive Platform
  | twitter
  | reddit
deriving DecidableEq, Repr

/-- The slice of the voice configuration `VoiceValidator` reads:
character limits and the validation mode. -/
structure VoiceCfg where
  preferred_max : Nat
  absolute_max : Nat
  reddit_preferred_max : Nat := 1000
  reddit_max : Nat := 5000
  strict_mode : Bool
deriving Repr

/-- Result record of `VoiceValidator.validate`. -/
structure ValidationResult where
  is_valid : Bool
  score : Int
  violations : List String
  warnings : List String
  character_count : Nat
deriving Repr, DecidableEq

/-- The `AMERICAN_SPELLINGS` regex list, as the word shapes each pattern
matches: a word ending in a suffix with at least one extra word character
before it, or a literal word. -/
inductive AmShape
  | suffix (s : String)
  | literal (w : String)

/-- The fifteen patterns of `VoiceValidator.AMERICAN_SPELLINGS`, in source
order; the last alternation `\b(while|among)\b` is listed as two literals. -/
def americanShapes : List AmShape :=
  [ .suffix "ize", .suffix "ization",
    .literal "color", .literal "favor", .literal "honor", .literal "labor",
    .literal "center", .literal "fiber", .literal "meter", .literal "theater",
    .literal "defense", .literal "offense", .literal "license", .literal "practice",
    .literal "while", .literal "among" ]

/-- Whether one word run matches one `AMERICAN_SPELLINGS` shape. -/
def amMatches (sh : AmShape) (w : List Char) : Bool :=
  match sh with
  | .suffix s => endsIn s.data w && decide (s.data.length < w.length)
  | .literal lit => w == lit.data

/-- `VoiceValidator._check_american_spellings`: full matches (`group(0)`)
of each pattern over the lowercased text, de-duplicated. -/
def check_american_spellings (text : List Char) : List String :=
  let ws := wordsOf (lowerL text)
  dedupFirst <|
    americanShapes.flatMap (fun sh =>
      (ws.filter (amMatches sh)).map (fun w => String.mk w))

/-- `VoiceValidator.CORPORATE_JARGON`. -/
def CORPORATE_JARGON : List String :=
  [ "synergy", "synergies", "leverage", "leveraging",
    "disrupt", "disruptive", "disruption",
    "game-changer", "game changer",
    "crushing it", "crush it",
    "ninja", "guru", "rockstar",
    "hustle", "hustling", "grind", "grinding",
    "move the needle", "circle back",
    "low-hanging fruit", "think outside the box",
    "paradigm shift", "best in class",
    "cutting edge", "bleeding edge",
    "growth hack", "growth hacking" ]

/-- `VoiceValidator._check_corporate_jargon`: substring membership in the
lowercased text, de-duplicated. -/
def check_corporate_jargon (text : List Char) : List String :=
  dedupFirst <|
    CORPORATE_JARGON.filter (fun j => subIn j.data (lowerL text))

/-- `VoiceValidator.SALESY_LANGUAGE`: the literal phrase between the two
word-boundary anchors of each pattern, with the raw pattern text kept for
the violation message. -/
def salesyPhrases : List (String × String) :=
  [ ("buy now", "\\bbuy now\\b"),
    ("limited time", "\\blimited time\\b"),
    ("dm me", "\\bDM me\\b"),
    ("check out my", "\\bcheck out my\\b"),
    ("link in bio", "\\blink in bio\\b"),
    ("discount code", "\\bdiscount code\\b"),
    ("special offer", "\\bspecial offer\\b"),
    ("free trial", "\\bfree trial\\b"),
    ("sign up now", "\\bsign up now\\b") ]

/-- `VoiceValidator._check_salesy_language`: case-insensitive bounded
search of each pattern, collecting the pattern text of each hit. -/
def check_salesy_language (text : List Char) : List String :=
  (salesyPhrases.filter
    (fun pr => boundedIn pr.1.data none (lowerL text))).map (fun pr => pr.2)

/-- One character of the emoji regex character class in
`VoiceValidator._count_emoji`. -/
def isEmojiChar (c : Char) : Bool :=
  let n := c.toNat
  (0x1F600 ≤ n && n ≤ 0x1F64F) || (0x1F300 ≤ n && n ≤ 0x1F5FF) ||
  (0x1F680 ≤ n && n ≤ 0x1F6FF) || (0x1F1E0 ≤ n && n ≤ 0x1F1FF)

/-- `VoiceValidator._count_emoji`. -/
def count_emoji (text : List Char) : Nat := text.countP isEmojiChar

/-- `VoiceValidator.validate`.  Reason strings follow the source f-strings,
except that the single-quote characters around interpolated words are left
out of the embedded messages. -/
def validate (cfg : VoiceCfg) (text : String) (platform : Option Platform) :
    ValidationResult :=
  let t := text.data
  let is_reddit := platform == some Platform.reddit
  let pref_max := if is_reddit then cfg.reddit_preferred_max else cfg.preferred_max
  let abs_max := if is_reddit then cfg.reddit_max else cfg.absolute_max
  let char_count := t.length
  let lenViol :=
    if char_count > abs_max then
      ["Exceeds absolute max (" ++ toString char_count ++ " > " ++
        toString abs_max ++ " chars)"]
    else []
  let lenWarn :=
    if char_count > abs_max then []
    else if char_count > pref_max then
      ["Exceeds preferred max (" ++ toString char_count ++ " > " ++
        toString pref_max ++ " chars)"]
    else []
  let exclamViol :=
    if subIn ['!'] t then ["Contains exclamation mark(s)"] else []
  let hyphen_count := countSpacedHyphen t
  let hyphenWarn :=
    if hyphen_count > 1 then
      ["Multiple hyphens used (" ++ toString hyphen_count ++ ")"]
    else []
  let americanViol :=
    (check_american_spellings t).map (fun w => "American spelling: " ++ w)
  let jargonViol :=
    (check_corporate_jargon t).map (fun w => "Corporate jargon: " ++ w)
  let salesyViol :=
    (check_salesy_language t).map (fun p => "Salesy language: " ++ p)
  let emoji_count := count_emoji t
  let emojiWarn :=
    if emoji_count > 1 then
      ["Too many emoji (" ++ toString emoji_count ++ ")"]
    else []
  let hashtag_count := countChar '#' t
  let hashtagViol :=
    if hashtag_count > 1 then
      ["Too many hashtags (" ++ toString hashtag_count ++ ")"]
    else []
  let hashtagWarn :=
    if hashtag_count == 1 then ["Contains 1 hashtag (prefer 0)"] else []
  let violations :=
    lenViol ++ exclamViol ++ americanViol ++ jargonViol ++ salesyViol ++
      hashtagViol
  let warnings := lenWarn ++ hyphenWarn ++ emojiWarn ++ hashtagWarn
  let score : Int :=
    max 0 (100 - 15 * (violations.length : Int) - 5 * (warnings.length : Int))
  let is_valid :=
    if cfg.strict_mode then violations.length == 0 else score ≥ 60
  { is_valid := is_valid
    score := score
    violations := violations
    warnings := warnings
    character_count := char_count }

/-- Modelled from the spec: the deployed `config/bot_config.yaml` (with the
`voice.validation.strict_mode` flag read by `VoiceValidator.__init__`) is
not part of the sources; the spec fixes the zero-violation semantics, i.e.
strict mode, and the test fixtures set `strict_mode: True`. -/
def strict_mode_default : Bool := true

/-- A concrete voice configuration matching the values in the repository
test fixtures (preferred 100, absolute 280, strict mode on). -/
def testVoiceCfg : VoiceCfg :=
  { preferred_max := 100
    absolute_max := 280
    strict_mode := strict_mode_default }

/-! ## Budget-guarded LLM client (`src/llm/openrouter_client.py`) -/

/-- The slice of the LLM configuration `OpenRouterClient` reads. -/
structure LLMCfg where
  requests_per_minute : ℚ
  daily_budget_usd : ℚ
deriving Repr

/-- The mutable client state (`last_request_time`, cost tracking). -/
structure ClientState where
  last_request_time : ℚ
  total_cost_usd : ℚ
  total_tokens : Nat
deriving Repr, DecidableEq

/-- Observable effects of one `generate_completion` call: sleeping (rate
limit or backoff) and issuing the HTTP POST. -/
inductive LLMEvent
  | sleep (seconds : ℚ)
  | httpPost
deriving Repr, DecidableEq

/-- Outcome of the external HTTP call, as seen by the client. -/
inductive NetOutcome
  | ok (content : String) (prompt_tokens completion_tokens total_tokens : Nat)
  | timeout
  | netError
  | apiError (status : Nat)
deriving Repr, DecidableEq

/-- Errors `generate_completion` can raise. -/
inductive LLMError
  | budgetExceeded (cost budget : ℚ)
  | timeoutErr
  | networkErr
  | httpStatusErr (status : Nat)
deriving Repr, DecidableEq

/-- Successful completion record. -/
structure Completion where
  content : String
  prompt_tokens : Nat
  completion_tokens : Nat
  total_tokens : Nat
  cost_usd : ℚ
deriving Repr, DecidableEq

/-- `OpenRouterClient._rate_limit`: sleep if the previous request was less
than `60 / requests_per_minute` seconds ago, then stamp the request time.
Returns the emitted sleep events and the updated state. -/
def rate_limit (cfg : LLMCfg) (st : ClientState) (now : ℚ) :
    List LLMEvent × ClientState :=
  let interval := 60 / cfg.requests_per_minute
  let elapsed := now - st.last_request_time
  if elapsed < interval then
    ([LLMEvent.sleep (interval - elapsed)],
      { st with last_request_time := now + (interval - elapsed) })
  else ([], { st with last_request_time := now })

/-- One un-retried `OpenRouterClient.generate_completion` call.  The budget
check comes first and raises before the rate limiter and before the HTTP
POST; on success the estimated cost (3 USD and 15 USD per million input
and output tokens) is added to the running totals. -/
def generate_completion (cfg : LLMCfg) (messages : List (String × String))
    (st : ClientState) (now : ℚ) (net : NetOutcome) :
    Except LLMError Completion × ClientState × List LLMEvent :=
  if cfg.daily_budget_usd ≤ st.total_cost_usd then
    (Except.error (LLMError.budgetExceeded st.total_cost_usd cfg.daily_budget_usd),
      st, [])
  else
    let (sleeps, st1) := rate_limit cfg st now
    let events := sleeps ++ [LLMEvent.httpPost]
    match net with
    | NetOutcome.ok content p c t =>
        let cost := (p : ℚ) / 1000000 * 3 + (c : ℚ) / 1000000 * 15
        let st2 := { st1 with
          total_tokens := st1.total_tokens + t
          total_cost_usd := st1.total_cost_usd + cost }
        (Except.ok ⟨content, p, c, t, cost⟩, st2, events)
    | NetOutcome.timeout => (Except.error LLMError.timeoutErr, st1, events)
    | NetOutcome.netError => (Except.error LLMError.networkErr, st1, events)
    | NetOutcome.apiError s => (Except.error (LLMError.httpStatusErr s), st1, events)

/-- The tenacity retry policy on `generate_completion` retries only the
transient transport failures (`httpx.TimeoutException`, `httpx.NetworkError`). -/
def isTransient : LLMError → Bool
  | LLMError.timeoutErr => true
  | LLMError.networkErr => true
  | _ => false

/-- The exponential backoff wait of the retry policy
(`wait_exponential(multiplier=1, min=2, max=10)`) before retry number `k`. -/
def backoffWait (k : Nat) : ℚ := max 2 (min 10 ((2 : ℚ) ^ k))

/-- The tenacity wrapper (`stop_after_attempt(3)`, `reraise=True`):
up to `fuel` attempts, retrying with backoff only on transient errors;
every other error is re-raised immediately. -/
def with_retry (cfg : LLMCfg) (messages : List (String × String))
    (nets : Nat → NetOutcome) (now : ℚ) :
    Nat → Nat → ClientState →
    Except LLMError Completion × ClientState × List LLMEvent
  | 0, _, st => (Except.error LLMError.networkErr, st, [])
  | fuel + 1, k, st =>
      let (r, st1, events) := generate_completion cfg messages st now (nets k)
      match r with
      | Except.ok c => (Except.ok c, st1, events)
      | Except.error e =>
          if isTransient e && decide (0 < fuel) then
            let (r2, st2, events2) := with_retry cfg messages nets now fuel (k + 1) st1
            (r2, st2, events ++ [LLMEvent.sleep (backoffWait k)] ++ events2)
          else (Except.error e, st1, events)

/-! ## Draft Generator (`src/llm/reply_generator.py`) -/

/-- One LLM response as consumed by the generation loop. -/
structure LLMResp where
  content : String
  cost_usd : ℚ
deriving Repr, DecidableEq

/-- The result record of `ReplyGenerator.generate_reply`. -/
structure DraftResult where
  reply_text : String
  validation : ValidationResult
  attempt_number : Nat
  llm_cost_usd : ℚ
deriving Repr, DecidableEq

/-- Model of Python `str.strip()`: trim whitespace at both ends. -/
def pyStrip (l : List Char) : List Char :=
  ((l.dropWhile Char.isWhitespace).reverse.dropWhile Char.isWhitespace).reverse

/-- The text the generation loop validates on a given 1-based attempt:
the LLM content, stripped. -/
def attemptText (llm : Nat → LLMResp) (attempt : Nat) : String :=
  String.mk (pyStrip (llm attempt).content.data)

/-- The bounded validate-and-retry loop of `generate_reply`: `remaining`
attempts left, the current 1-based attempt number, and the cost accumulated
so far.  The cost of every attempt is added before validation; a valid
draft returns immediately; exhaustion raises. -/
def gen_loop (cfg : VoiceCfg) (platform : Option Platform)
    (llm : Nat → LLMResp) (max_attempts : Nat) :
    Nat → Nat → ℚ → Except String DraftResult
  | 0, _, _ =>
      Except.error ("Failed to generate valid reply after " ++
        toString max_attempts ++ " attempts")
  | remaining + 1, attempt, total =>
      let text := attemptText llm attempt
      let total1 := total + (llm attempt).cost_usd
      let v := validate cfg text platform
      if v.is_valid then
        Except.ok ⟨text, v, attempt, total1⟩
      else
        gen_loop cfg platform llm max_attempts remaining (attempt + 1) total1

/-- `ReplyGenerator.generate_reply`, with the successive LLM completions
supplied as an oracle indexed by the attempt number. -/
def generate_reply (cfg : VoiceCfg) (platform : Option Platform)
    (llm : Nat → LLMResp) (max_attempts : Nat) : Except String DraftResult :=
  gen_loop cfg platform llm max_attempts max_attempts 1 0

/-- Sum of the costs of attempts `a`, `a+1`, …, `a+k-1`. -/
def costFrom (llm : Nat → LLMResp) (a : Nat) : Nat → ℚ
  | 0 => 0
  | k + 1 => (llm a).cost_usd + costFrom llm (a + 1) k

/-! ## Deduplication & Rate Guard (`src/filtering/deduplication.py`) -/

/-- The slice of the deduplication configuration the manager reads. -/
structure DedupCfg where
  history_days : Nat
  same_author_cooldown_hours : Nat
  max_replies_per_hour : Nat
  max_replies_per_day : Nat
deriving Repr

/-- One persisted `RepliedTweet` row (the score-breakdown columns, which no
check reads, are left out).  `replied_at` is in hours. -/
structure RepliedTweet where
  tweet_id : String
  author_username : String
  replied_at : ℚ
  reply_text : String
deriving Repr, DecidableEq

/-- `DeduplicationManager._has_replied_to_tweet`: a record for this id with
`replied_at` at or after `now` minus the retention window. -/
def has_replied_to_tweet (cfg : DedupCfg) (now : ℚ) (hist : List RepliedTweet)
    (tweet_id : String) : Bool :=
  hist.any (fun r =>
    r.tweet_id == tweet_id &&
      decide (now - 24 * (cfg.history_days : ℚ) ≤ r.replied_at))

/-- `DeduplicationManager._is_author_on_cooldown`. -/
def is_author_on_cooldown (cfg : DedupCfg) (now : ℚ) (hist : List RepliedTweet)
    (author_username : String) : Bool :=
  hist.any (fun r =>
    r.author_username == author_username &&
      decide (now - (cfg.same_author_cooldown_hours : ℚ) ≤ r.replied_at))

/-- Number of records in the last rolling hour. -/
def hour_count (now : ℚ) (hist : List RepliedTweet) : Nat :=
  hist.countP (fun r => decide (now - 1 ≤ r.replied_at))

/-- Number of records in the last rolling day. -/
def day_count (now : ℚ) (hist : List RepliedTweet) : Nat :=
  hist.countP (fun r => decide (now - 24 ≤ r.replied_at))

/-- `DeduplicationManager._check_rate_limits`: the hourly cap is compared
first, then the daily cap; a met-or-exceeded cap fails. -/
def check_rate_limits (cfg : DedupCfg) (now : ℚ) (hist : List RepliedTweet) :
    Bool × Option String :=
  let hc := hour_count now hist
  if cfg.max_replies_per_hour ≤ hc then
    (false, some ("Hourly limit reached: " ++ toString hc ++ "/" ++
      toString cfg.max_replies_per_hour))
  else
    let dc := day_count now hist
    if cfg.max_replies_per_day ≤ dc then
      (false, some ("Daily limit reached: " ++ toString dc ++ "/" ++
        toString cfg.max_replies_per_day))
    else (true, none)

/-- `DeduplicationManager.check_tweet_eligibility`: already-engaged, then
author cooldown, then the rate limits; the first failing check returns. -/
def check_tweet_eligibility (cfg : DedupCfg) (now : ℚ)
    (hist : List RepliedTweet) (tweet_id author_username : String) :
    Bool × Option String :=
  if has_replied_to_tweet cfg now hist tweet_id then
    (false, some ("Already replied to tweet " ++ tweet_id))
  else if is_author_on_cooldown cfg now hist author_username then
    (false, some ("Author @" ++ author_username ++ " on cooldown"))
  else
    match check_rate_limits cfg now hist with
    | (false, reason) => (false, reason)
    | (true, _) => (true, none)

/-- `DeduplicationManager.record_reply`: append one durable row stamped
with the current time. -/
def record_reply (hist : List RepliedTweet) (now : ℚ)
    (tweet_id author_username reply_text : String) : List RepliedTweet :=
  hist ++ [⟨tweet_id, author_username, now, reply_text⟩]

/-! ## Post and author data model (`src/core/models.py`) -/

/-- Unified author record.  `followers_count` uses `0` for the Python
`None`-or-`0` default. -/
structure Author where
  username : String
  display_name : String
  followers_count : Nat
  is_verified : Bool
  bio : Option String
deriving Repr, DecidableEq

/-- Unified interaction metrics. -/
structure SocialMetrics where
  likes : Nat
  replies : Nat
  shares : Nat
  impressions : Nat
deriving Repr, DecidableEq

/-- Commercial priority tiers (`CommercialFilter.PRIORITY_MULTIPLIERS` keys). -/
inductive Tier
  | critical
  | high
  | medium_high
  | medium
  | baseline
deriving DecidableEq, Repr

/-- The fixed `PRIORITY_MULTIPLIERS` lookup table. -/
def PRIORITY_MULTIPLIERS : Tier → ℚ
  | Tier.critical => 3
  | Tier.high => 2
  | Tier.medium_high => 3 / 2
  | Tier.medium => 6 / 5
  | Tier.baseline => 1

/-- Position of a tier in `priority_order` (`critical` first). -/
def priorityIndex : Tier → Nat
  | Tier.critical => 0
  | Tier.high => 1
  | Tier.medium_high => 2
  | Tier.medium => 3
  | Tier.baseline => 4

/-- The commercial analysis attached to a post by `analyze_post`. -/
structure CommercialSignals where
  priority : Tier
  multiplier : ℚ
  matched_keywords : List String
  matched_profile_indicators : List String
  commercial_score : ℚ
deriving Repr, DecidableEq

/-- Unified content model.  `created_at` is in hours; `rejection_reason`
models the side-channel key legacy callers write into `raw_data`. -/
structure SocialPost where
  id : String
  platform : Platform
  text : String
  author : Author
  created_at : ℚ
  metrics : SocialMetrics
  language : String
  commercial_signals : Option CommercialSignals
  rejection_reason : Option String
deriving Repr, DecidableEq

/-! ## Priority Filter (`src/filtering/commercial_filter.py`) -/

/-- The four ordered keyword tiers of the commercial configuration. -/
structure PriorityKeywordsCfg where
  critical : List String
  high : List String
  medium_high : List String
  medium : List String
deriving Repr

/-- Profile indicator lists of the commercial configuration. -/
structure ProfileIndicatorsCfg where
  entrepreneur_keywords : List String
  target_stage : List String
deriving Repr

/-- The commercial configuration. -/
structure CommercialCfg where
  priority_keywords : PriorityKeywordsCfg
  profile_indicators : ProfileIndicatorsCfg
deriving Repr

/-- Keywords of one tier whose lowercase form occurs in the (already
lowercased) text. -/
def tierMatches (keywords : List String) (text : List Char) : List String :=
  keywords.filter (fun k => subIn (lowerL k.data) text)

/-- `CommercialFilter._check_priority_keywords`: the four tiers are tried
from `critical` down to `medium`; the first tier with a hit wins. -/
def check_priority_keywords (cfg : CommercialCfg) (text : List Char) :
    Tier × List String :=
  let m := tierMatches cfg.priority_keywords.critical text
  if !m.isEmpty then (Tier.critical, m)
  else
    let m := tierMatches cfg.priority_keywords.high text
    if !m.isEmpty then (Tier.high, m)
    else
      let m := tierMatches cfg.priority_keywords.medium_high text
      if !m.isEmpty then (Tier.medium_high, m)
      else
        let m := tierMatches cfg.priority_keywords.medium text
        if !m.isEmpty then (Tier.medium, m)
        else (Tier.baseline, [])

/-- `CommercialFilter._check_profile_indicators`: entrepreneur keywords are
searched in the combined author-and-text string, stage indicators in the
post text. -/
def check_profile_indicators (cfg : CommercialCfg) (post : SocialPost) :
    List String :=
  let search_text := lowerL
    (post.author.display_name.data ++ [' '] ++ post.author.username.data ++
      [' '] ++ (post.author.bio.getD "").data ++ [' '] ++ post.text.data)
  let text_lower := lowerL post.text.data
  (cfg.profile_indicators.entrepreneur_keywords.filter
      (fun k => subIn (lowerL k.data) search_text)).map
      (fun k => "entrepreneur:" ++ k) ++
  (cfg.profile_indicators.target_stage.filter
      (fun s => subIn (lowerL s.data) text_lower)).map
      (fun s => "stage:" ++ s)

/-- Round to two decimal places, `⌊x · 100 + 1/2⌋ / 100` (model of Python
`round(x, 2)`; every value it is applied to in this development has an
integral hundredfold, where the two agree exactly). -/
def round2 (q : ℚ) : ℚ := ((⌊q * 100 + 1 / 2⌋ : ℤ) : ℚ) / 100

/-- `CommercialFilter._calculate_commercial_score`. -/
def calculate_commercial_score (multiplier : ℚ)
    (keyword_count indicator_count : Nat) : ℚ :=
  let base_score := multiplier * 20
  let keyword_bonus : ℚ := min ((keyword_count : ℚ) * 5) 20
  let indicator_bonus : ℚ := min ((indicator_count : ℚ) * 3) 15
  round2 (min (base_score + keyword_bonus + indicator_bonus) 100)

/-- `CommercialFilter.analyze_post` (the returned analysis). -/
def analyze_post (cfg : CommercialCfg) (post : SocialPost) : CommercialSignals :=
  let text := lowerL post.text.data
  let (priority, matched_keywords) := check_priority_keywords cfg text
  let profile_indicators := check_profile_indicators cfg post
  let multiplier := PRIORITY_MULTIPLIERS priority
  { priority := priority
    multiplier := multiplier
    matched_keywords := matched_keywords
    matched_profile_indicators := profile_indicators
    commercial_score :=
      calculate_commercial_score multiplier matched_keywords.length
        profile_indicators.length }

/-- The side effect of `analyze_post`: the analysis is attached to the post. -/
def attachSignals (cfg : CommercialCfg) (post : SocialPost) : SocialPost :=
  { post with commercial_signals := some (analyze_post cfg post) }

/-- `CommercialFilter.filter_posts_batch`: every post is analysed; a post
passes when its tier index is at most the minimum-priority index; rejected
posts are collected as they are, with no rejection reason attached. -/
def filter_posts_batch (cfg : CommercialCfg) (posts : List SocialPost)
    (min_priority : Tier) : List SocialPost × List SocialPost :=
  match posts with
  | [] => ([], [])
  | p :: ps =>
      let p1 := attachSignals cfg p
      let (passed, rejected) := filter_posts_batch cfg ps min_priority
      if priorityIndex (analyze_post cfg p).priority ≤ priorityIndex min_priority
      then (p1 :: passed, rejected)
      else (passed, p1 :: rejected)

/-! ## Opportunity Scorer (`src/scoring/post_scorer.py`)

`math.log10` is modelled as an abstract function parameter `log10`. -/

/-- Scoring weights (`scoring.weights`). -/
structure ScoringWeights where
  engagement_velocity : ℚ
  user_authority : ℚ
  timing_score : ℚ
  discussion_opportunity : ℚ
deriving Repr

/-- The slice of the configuration `PostScorer` reads. -/
structure ScoringCfg where
  weights : ScoringWeights
  minimum_score : ℚ
  active_start : Nat
  active_end : Nat
deriving Repr

/-- Result record of `PostScorer.score_post` (the human-readable
`reasoning` string, pure formatting, is left out). -/
structure ScoreResult where
  total_score : ℚ
  engagement_velocity_score : ℚ
  user_authority_score : ℚ
  timing_score : ℚ
  discussion_score : ℚ
  meets_threshold : Bool
deriving Repr, DecidableEq

/-- `PostScorer._calculate_post_age_hours`. -/
def post_age_hours (now : ℚ) (post : SocialPost) : ℚ :=
  max 0 (now - post.created_at)

/-- The like/impression (or logarithmic like-count fallback) part of
`_score_engagement_velocity` (0-40 points). -/
def velocity_ratio_part (log10 : ℚ → ℚ) (post : SocialPost) : ℚ :=
  if 0 < post.metrics.impressions then
    min ((post.metrics.likes : ℚ) / (post.metrics.impressions : ℚ) * 1000) 40
  else if 0 < post.metrics.likes then
    min (log10 ((post.metrics.likes : ℚ) + 1) * 15) 40
  else 0

/-- The reply-rate part of `_score_engagement_velocity` (0-30 points). -/
def velocity_reply_part (post : SocialPost) : ℚ :=
  if 0 < post.metrics.likes then
    min ((post.metrics.replies : ℚ) / (post.metrics.likes : ℚ) * 100) 30
  else 0

/-- The freshness bonus of `_score_engagement_velocity` (5-30 points). -/
def velocity_freshness (now : ℚ) (post : SocialPost) : ℚ :=
  let age := post_age_hours now post
  if 2 ≤ age ∧ age ≤ 6 then 30
  else if 6 < age ∧ age ≤ 12 then 20
  else if age < 2 then 10
  else 5

/-- `PostScorer._score_engagement_velocity`. -/
def score_engagement_velocity (log10 : ℚ → ℚ) (now : ℚ) (post : SocialPost) : ℚ :=
  min (velocity_ratio_part log10 post + velocity_reply_part post +
    velocity_freshness now post) 100

/-- The follower part of `_score_user_authority` (Reddit gets the fixed
baseline 30). -/
def authority_follower_part (log10 : ℚ → ℚ) (post : SocialPost) : ℚ :=
  if post.platform = Platform.reddit then 30
  else if 0 < post.author.followers_count then
    min (log10 ((post.author.followers_count : ℚ) + 1) * 10) 60
  else 0

/-- `PostScorer._score_user_authority`. -/
def score_user_authority (log10 : ℚ → ℚ) (post : SocialPost) : ℚ :=
  min (authority_follower_part log10 post +
    (if post.author.is_verified then 20 else 0)) 100

/-- Hour of day of a timestamp in hours (model of `datetime.hour` in UTC). -/
def hourOfDay (t : ℚ) : Int := (⌊t⌋ : Int) % 24

/-- The golden-window part of `_score_timing`. -/
def timing_window_part (now : ℚ) (post : SocialPost) : ℚ :=
  let age := post_age_hours now post
  if post.platform = Platform.reddit then
    if 1 / 2 ≤ age ∧ age ≤ 12 then 60
    else if 12 < age ∧ age ≤ 24 then 40
    else 20
  else
    if 2 ≤ age ∧ age ≤ 6 then 60
    else if 6 < age ∧ age ≤ 12 then 40
    else 20

/-- The active-hours alignment part of `_score_timing`. -/
def timing_active_part (cfg : ScoringCfg) (post : SocialPost) : ℚ :=
  if (cfg.active_start : Int) ≤ hourOfDay post.created_at ∧
      hourOfDay post.created_at < (cfg.active_end : Int) then 30
  else 5

/-- `PostScorer._score_timing`. -/
def score_timing (cfg : ScoringCfg) (now : ℚ) (post : SocialPost) : ℚ :=
  min (timing_window_part now post + timing_active_part cfg post) 100

/-- The length part of `_score_discussion_opportunity`. -/
def discussion_length_part (post : SocialPost) : ℚ :=
  if post.platform = Platform.reddit then
    if 200 < post.text.data.length then 25
    else if 50 < post.text.data.length then 15
    else 0
  else
    if 100 ≤ post.text.data.length ∧ post.text.data.length ≤ 280 then 25 else 0

/-- The reply-count sweet-spot part of `_score_discussion_opportunity`. -/
def discussion_reply_part (post : SocialPost) : ℚ :=
  if 3 ≤ post.metrics.replies ∧ post.metrics.replies ≤ 20 then 25
  else if post.metrics.replies < 3 then 10
  else 5

/-- `PostScorer._score_discussion_opportunity`. -/
def score_discussion_opportunity (post : SocialPost) : ℚ :=
  min ((if subIn ['?'] post.text.data then (30 : ℚ) else 0) +
    discussion_length_part post + discussion_reply_part post) 100

/-- The weighted pre-multiplier sum of the four component scores. -/
def weightedComponentSum (log10 : ℚ → ℚ) (cfg : ScoringCfg) (now : ℚ)
    (post : SocialPost) : ℚ :=
  score_engagement_velocity log10 now post * cfg.weights.engagement_velocity +
    score_user_authority log10 post * cfg.weights.user_authority +
    score_timing cfg now post * cfg.weights.timing_score +
    score_discussion_opportunity post * cfg.weights.discussion_opportunity

/-- The commercial multiplier `score_post` applies (1 when the post carries
no commercial signals, the recorded multiplier otherwise). -/
def effectiveMultiplier (post : SocialPost) : ℚ :=
  match post.commercial_signals with
  | none => 1
  | some s => s.multiplier

/-- `PostScorer.score_post`. -/
def score_post (log10 : ℚ → ℚ) (cfg : ScoringCfg) (now : ℚ)
    (post : SocialPost) : ScoreResult :=
  let velocity := score_engagement_velocity log10 now post
  let authority := score_user_authority log10 post
  let timing := score_timing cfg now post
  let discussion := score_discussion_opportunity post
  let total :=
    min (weightedComponentSum log10 cfg now post * effectiveMultiplier post) 100
  { total_score := round2 total
    engagement_velocity_score := round2 velocity
    user_authority_score := round2 authority
    timing_score := round2 timing
    discussion_score := round2 discussion
    meets_threshold := decide (cfg.minimum_score ≤ total) }

/-! ## Eligibility Filter (`src/filtering/base_filter.py`)

`filter_tweet` works on dict-like tweets; timestamps may arrive as
datetime objects or as strings.  Parsing (`datetime.fromisoformat`) and
regex search (`re.search`) are external library calls, modelled as
function parameters.  A raised Python exception is an `Except.error`. -/

/-- The `created_at` field of a scraped tweet: a datetime object, a raw
string, or absent/empty. -/
inductive CreatedAt
  | dt (t : ℚ)
  | str (s : String)
deriving Repr, DecidableEq

/-- The filter configuration slice `BaseFilter` reads. -/
structure FiltersCfg where
  min_followers : Nat
  max_followers : Nat
  min_likes : Nat
  min_replies : Nat
  max_replies : Nat
  min_age_hours : Nat
  max_age_hours : Nat
  required_language : String
  min_length : Nat
  max_length : Nat
  reddit_max_length : Nat
  banned_keywords : List String
  banned_patterns : List String
deriving Repr

/-- A dict-like tweet as consumed by `BaseFilter`. -/
structure TweetDict where
  platform : Platform
  followers_count : Nat
  likes : Nat
  replies : Nat
  created_at : Option CreatedAt
  language : String
  text : String
deriving Repr, DecidableEq

/-- A Python runtime error escaping a check. -/
inductive PyError
  | nameError (name : String)
deriving Repr, DecidableEq

/-- Model of Python float formatting of an age (only the shape of the
message matters for the properties below). -/
def qStr (q : ℚ) : String := toString q

/-- `BaseFilter._check_engagement`: follower window (skipped on Reddit),
minimum likes, reply window; first failure wins. -/
def check_engagement (cfg : FiltersCfg) (tweet : TweetDict) :
    Bool × Option String :=
  let followerCheck : Bool × Option String :=
    if tweet.platform = Platform.reddit then (true, none)
    else if tweet.followers_count < cfg.min_followers then
      (false, some ("Too few followers: " ++ toString tweet.followers_count ++
        " < " ++ toString cfg.min_followers))
    else if cfg.max_followers < tweet.followers_count then
      (false, some ("Too many followers: " ++ toString tweet.followers_count ++
        " > " ++ toString cfg.max_followers))
    else (true, none)
  match followerCheck with
  | (false, r) => (false, r)
  | (true, _) =>
    if tweet.likes < cfg.min_likes then
      (false, some ("Too few likes: " ++ toString tweet.likes ++ " < " ++
        toString cfg.min_likes))
    else if tweet.replies < cfg.min_replies then
      (false, some ("Too few replies: " ++ toString tweet.replies ++ " < " ++
        toString cfg.min_replies))
    else if cfg.max_replies < tweet.replies then
      (false, some ("Too many replies: " ++ toString tweet.replies ++ " > " ++
        toString cfg.max_replies))
    else (true, none)

/-- The Python `str.replace('Z', '+00:00')` applied before parsing. -/
def replaceZ : List Char → List Char
  | [] => []
  | c :: cs =>
      if c == 'Z' then '+' :: '0' :: '0' :: ':' :: '0' :: '0' :: replaceZ cs
      else c :: replaceZ cs

/-- The age-window logic of `_check_recency` once a timestamp value is in
hand (in hours; the 5-minute clock-skew allowance is `1/12` hour). -/
def recencyDecision (cfg : FiltersCfg) (now t : ℚ) : Bool × Option String :=
  let age := now - t
  if age < -(1 / 12) then
    (false, some ("Future timestamp: " ++ qStr t))
  else
    let age_hours := max 0 age
    if age_hours < (cfg.min_age_hours : ℚ) then
      (false, some ("Too recent: " ++ qStr age_hours ++ "h < " ++
        toString cfg.min_age_hours ++ "h"))
    else if (cfg.max_age_hours : ℚ) < age_hours then
      (false, some ("Too old: " ++ qStr age_hours ++ "h > " ++
        toString cfg.max_age_hours ++ "h"))
    else (true, none)

/-- `BaseFilter._check_recency`.  When the timestamp string cannot be
parsed, the source except-handler builds
`f"Invalid timestamp: {created_at_str}"`, but no variable named
`created_at_str` exists anywhere in the function, so Python raises
`NameError` out of the check instead of returning a decision. -/
def check_recency (cfg : FiltersCfg) (parseIso : String → Option ℚ)
    (now : ℚ) (tweet : TweetDict) : Except PyError (Bool × Option String) :=
  match tweet.created_at with
  | none => Except.ok (false, some "Missing created_at timestamp")
  | some (CreatedAt.dt t) => Except.ok (recencyDecision cfg now t)
  | some (CreatedAt.str s) =>
      match parseIso (String.mk (replaceZ s.data)) with
      | some t => Except.ok (recencyDecision cfg now t)
      | none => Except.error (PyError.nameError "created_at_str")

/-- `BaseFilter._check_language`. -/
def check_language (cfg : FiltersCfg) (tweet : TweetDict) :
    Bool × Option String :=
  if tweet.language == cfg.required_language then (true, none)
  else
    (false, some ("Wrong language: " ++ tweet.language ++ " != " ++
      cfg.required_language))

/-- `BaseFilter._check_content_quality` (`re.search` with `IGNORECASE` is
the abstract parameter `reSearch`). -/
def check_content_quality (cfg : FiltersCfg)
    (reSearch : String → String → Bool) (tweet : TweetDict) :
    Bool × Option String :=
  let max_len :=
    if tweet.platform = Platform.reddit then cfg.reddit_max_length
    else cfg.max_length
  let len := tweet.text.data.length
  if len < cfg.min_length then
    (false, some ("Too short: " ++ toString len ++ " < " ++
      toString cfg.min_length))
  else if max_len < len then
    (false, some ("Too long: " ++ toString len ++ " > " ++ toString max_len))
  else
    match cfg.banned_keywords.find?
        (fun k => subIn (lowerL k.data) (lowerL tweet.text.data)) with
    | some k => (false, some ("Banned keyword: " ++ k))
    | none =>
        match cfg.banned_patterns.find? (fun p => reSearch p tweet.text) with
        | some p => (false, some ("Banned pattern: " ++ p))
        | none => (true, none)

/-- `BaseFilter.filter_tweet`: the four checks in fixed order, each
short-circuiting on first failure; an exception in a check escapes. -/
def filter_tweet (cfg : FiltersCfg) (parseIso : String → Option ℚ)
    (reSearch : String → String → Bool) (now : ℚ) (tweet : TweetDict) :
    Except PyError (Bool × Option String) :=
  match check_engagement cfg tweet with
  | (false, r) => Except.ok (false, r)
  | (true, _) =>
    match check_recency cfg parseIso now tweet with
    | Except.error e => Except.error e
    | Except.ok (false, r) => Except.ok (false, r)
    | Except.ok (true, _) =>
      match check_language cfg tweet with
      | (false, r) => Except.ok (false, r)
      | (true, _) =>
        match check_content_quality cfg reSearch tweet with
        | (false, r) => Except.ok (false, r)
        | (true, _) => Except.ok (true, none)

/-! ## Theorems -/

/-- C1: for every message list, when the cumulative cost is at or above the
daily budget ceiling, `generate_completion` (also under its retry wrapper)
fails immediately with the budget-exceeded error, emits no sleep, no
backoff and no HTTP POST, and leaves the client state — in particular the
cumulative cost — unchanged. -/
theorem budget_guard_fails_fast (cfg : LLMCfg) (messages : List (String × String))
    (st : ClientState) (now : ℚ) (nets : Nat → NetOutcome)
    (h : cfg.daily_budget_usd ≤ st.total_cost_usd) :
    generate_completion cfg messages st now (nets 0) =
      (Except.error (LLMError.budgetExceeded st.total_cost_usd cfg.daily_budget_usd),
        st, []) ∧
    with_retry cfg messages nets now 3 0 st =
      (Except.error (LLMError.budgetExceeded st.total_cost_usd cfg.daily_budget_usd),
        st, []) := by
  have h1 : generate_completion cfg messages st now (nets 0) =
      (Except.error (LLMError.budgetExceeded st.total_cost_usd cfg.daily_budget_usd),
        st, []) := by
    unfold generate_completion
    rw [if_pos h]
  refine ⟨h1, ?_⟩
  unfold with_retry
  rw [h1]
  simp [isTransient]

/-- Witness for C1 at a concrete saturated state. -/
theorem budget_guard_fails_fast_witness :
    (⟨20, 50⟩ : LLMCfg).daily_budget_usd ≤
      (⟨0, 50, 1000⟩ : ClientState).total_cost_usd ∧
    with_retry ⟨20, 50⟩ [] (fun _ => NetOutcome.ok "hello" 100 100 200) 0 3 0
        ⟨0, 50, 1000⟩ =
      (Except.error (LLMError.budgetExceeded 50 50), ⟨0, 50, 1000⟩, []) :=
  ⟨by norm_num,
    (budget_guard_fails_fast ⟨20, 50⟩ [] ⟨0, 50, 1000⟩ 0
      (fun _ => NetOutcome.ok "hello" 100 100 200) (by norm_num)).2⟩

/-- C2: in strict mode (the configuration the spec fixes), `validate`
returns `is_valid` exactly when the violations list is empty, and any text
containing an exclamation mark is invalid. -/
theorem validator_valid_iff_no_violations (cfg : VoiceCfg) (text : String)
    (platform : Option Platform) (hstrict : cfg.strict_mode = true) :
    ((validate cfg text platform).is_valid = true ↔
      (validate cfg text platform).violations = []) ∧
    (subIn ['!'] text.data = true →
      (validate cfg text platform).is_valid = false) := by
  constructor
  · simp only [validate, hstrict, if_true]
    simp [List.length_eq_zero]
  · intro hex
    simp only [validate, hstrict, if_true, hex]
    simp [List.length_eq_zero]

/-- Witness for C2 on concrete texts: an exclamation text is invalid with a
nonempty violations list, a clean text is valid with none. -/
theorem validator_valid_iff_no_violations_witness :
    (validate testVoiceCfg "Quite right" none).is_valid = true ∧
    (validate testVoiceCfg "Quite right" none).violations = [] ∧
    (validate testVoiceCfg "Great!" none).is_valid = false := by
  refine ⟨?_, ?_, ?_⟩
  · exact (validator_valid_iff_no_violations testVoiceCfg "Quite right" none
      rfl).1.mpr (by decide)
  · decide
  · exact (validator_valid_iff_no_violations testVoiceCfg "Great!" none
      rfl).2 (by decide)

/-- C8 counterexample: a text with two hashtags receives a *violation*
entry for the excessive hashtag count, not a warning, refuting the claim
that excessive symbol counts only ever produce soft warnings. -/
theorem hashtag_violation_counterexample :
    "Too many hashtags (2)" ∈ (validate testVoiceCfg "#a #b" none).violations ∧
    (validate testVoiceCfg "#a #b" none).is_valid = false := by
  constructor
  · decide
  · decide

/-- C8 amended: an excessive emoji count (beyond one) produces only a soft
warning, while more than one hashtag produces a violation and exactly one
hashtag produces a warning. -/
theorem symbol_count_classification (cfg : VoiceCfg) (text : String)
    (platform : Option Platform) :
    (1 < count_emoji text.data →
      "Too many emoji (" ++ toString (count_emoji text.data) ++ ")" ∈
        (validate cfg text platform).warnings) ∧
    (1 < countChar '#' text.data →
      "Too many hashtags (" ++ toString (countChar '#' text.data) ++ ")" ∈
        (validate cfg text platform).violations) ∧
    (countChar '#' text.data = 1 →
      "Contains 1 hashtag (prefer 0)" ∈ (validate cfg text platform).warnings) := by
  refine ⟨?_, ?_, ?_⟩
  · intro he
    simp [validate, he]
  · intro hh
    simp [validate, hh]
  · intro hh
    simp [validate, hh]

/-- Witness for the amended C8 on concrete texts. -/
theorem symbol_count_classification_witness :
    ("Too many emoji (2)" ∈
      (validate testVoiceCfg
        (String.mk [Char.ofNat 0x1F600, Char.ofNat 0x1F600]) none).warnings) ∧
    ("Too many hashtags (2)" ∈ (validate testVoiceCfg "#a #b" none).violations) ∧
    ("Contains 1 hashtag (prefer 0)" ∈ (validate testVoiceCfg "#a" none).warnings) := by
  refine ⟨?_, ?_, ?_⟩
  · exact (symbol_count_classification testVoiceCfg
      (String.mk [Char.ofNat 0x1F600, Char.ofNat 0x1F600]) none).1 (by decide)
  · exact (symbol_count_classification testVoiceCfg "#a #b" none).2.1 (by decide)
  · exact (symbol_count_classification testVoiceCfg "#a" none).2.2 (by decide)

/-- C9: when the `created_at` string cannot be parsed, the recency check
does not return a `(bool, reason)` decision: the except-handler itself
raises `NameError` for the undefined `created_at_str`, and the error
escapes `filter_tweet`. -/
theorem recency_parse_raises_name_error (cfg : FiltersCfg)
    (parseIso : String → Option ℚ) (reSearch : String → String → Bool)
    (now : ℚ) (tweet : TweetDict) (s : String)
    (hcre : tweet.created_at = some (CreatedAt.str s))
    (hparse : parseIso (String.mk (replaceZ s.data)) = none)
    (heng : check_engagement cfg tweet = (true, none)) :
    check_recency cfg parseIso now tweet =
      Except.error (PyError.nameError "created_at_str") ∧
    filter_tweet cfg parseIso reSearch now tweet =
      Except.error (PyError.nameError "created_at_str") := by
  have h1 : check_recency cfg parseIso now tweet =
      Except.error (PyError.nameError "created_at_str") := by
    simp [check_recency, hcre, hparse]
  refine ⟨h1, ?_⟩
  simp [filter_tweet, heng, h1]

/-- A concrete eligibility-filter configuration (values shaped like the
repository test fixtures). -/
def testFiltersCfg : FiltersCfg :=
  { min_followers := 500
    max_followers := 100000
    min_likes := 10
    min_replies := 0
    max_replies := 50
    min_age_hours := 2
    max_age_hours := 24
    required_language := "en"
    min_length := 20
    max_length := 500
    reddit_max_length := 10000
    banned_keywords := []
    banned_patterns := [] }

/-- Witness for C9: a concrete tweet with an unparseable timestamp string. -/
theorem recency_parse_raises_name_error_witness :
    filter_tweet testFiltersCfg (fun _ => none) (fun _ _ => false) 100
        ⟨Platform.twitter, 1000, 15, 5, some (CreatedAt.str "not-a-timestamp"),
          "en", "a sufficiently long tweet text"⟩ =
      Except.error (PyError.nameError "created_at_str") :=
  (recency_parse_raises_name_error testFiltersCfg (fun _ => none)
    (fun _ _ => false) 100
    ⟨Platform.twitter, 1000, 15, 5, some (CreatedAt.str "not-a-timestamp"),
      "en", "a sufficiently long tweet text"⟩
    "not-a-timestamp" rfl rfl (by decide)).2

/-- C4: after `record_reply` has appended an engagement record, a later
check of the same item inside the retention window is ineligible with the
already-replied reason, and a later check of the same author for a
different (unengaged) item inside the cooldown window is ineligible with
the cooldown reason. -/
theorem record_then_check_ineligible (cfg : DedupCfg) (hist : List RepliedTweet)
    (t_rec t_chk : ℚ) (item author reply item2 author2 : String)
    (hret : t_chk - 24 * (cfg.history_days : ℚ) ≤ t_rec)
    (hcool : t_chk - (cfg.same_author_cooldown_hours : ℚ) ≤ t_rec)
    (hno : has_replied_to_tweet cfg t_chk
      (record_reply hist t_rec item author reply) item2 = false) :
    check_tweet_eligibility cfg t_chk (record_reply hist t_rec item author reply)
        item author2 =
      (false, some ("Already replied to tweet " ++ item)) ∧
    check_tweet_eligibility cfg t_chk (record_reply hist t_rec item author reply)
        item2 author =
      (false, some ("Author @" ++ author ++ " on cooldown")) := by
  constructor
  · have h1 : has_replied_to_tweet cfg t_chk
        (record_reply hist t_rec item author reply) item = true := by
      simp only [has_replied_to_tweet, record_reply, List.any_append,
        List.any_cons, List.any_nil, Bool.or_eq_true]
      right
      simp [hret]
    simp [check_tweet_eligibility, h1]
  · have h2 : is_author_on_cooldown cfg t_chk
        (record_reply hist t_rec item author reply) author = true := by
      simp only [is_author_on_cooldown, record_reply, List.any_append,
        List.any_cons, List.any_nil, Bool.or_eq_true]
      right
      simp [hcool]
    simp [check_tweet_eligibility, hno, h2]

/-- Witness for C4 on a concrete record and check one hour apart. -/
theorem record_then_check_ineligible_witness :
    check_tweet_eligibility ⟨7, 48, 5, 20⟩ 101
        (record_reply [] 100 "t1" "a1" "thanks") "t1" "a2" =
      (false, some "Already replied to tweet t1") ∧
    check_tweet_eligibility ⟨7, 48, 5, 20⟩ 101
        (record_reply [] 100 "t1" "a1" "thanks") "t2" "a1" =
      (false, some "Author @a1 on cooldown") :=
  record_then_check_ineligible ⟨7, 48, 5, 20⟩ [] 100 101 "t1" "a1" "thanks"
    "t2" "a2" (by norm_num) (by norm_num)
    (by norm_num [has_replied_to_tweet, record_reply] <;> decide)

/-- C5: `check_tweet_eligibility` evaluates already-engaged, then author
cooldown, then the hourly and daily caps, in that order; the first failing
check fixes the reason and short-circuits the rest, and a met-or-exceeded
cap is ineligible; when everything passes the item is eligible. -/
theorem check_order_first_failure_wins (cfg : DedupCfg) (now : ℚ)
    (hist : List RepliedTweet) (item author : String) :
    (has_replied_to_tweet cfg now hist item = true →
      check_tweet_eligibility cfg now hist item author =
        (false, some ("Already replied to tweet " ++ item))) ∧
    (has_replied_to_tweet cfg now hist item = false →
      is_author_on_cooldown cfg now hist author = true →
      check_tweet_eligibility cfg now hist item author =
        (false, some ("Author @" ++ author ++ " on cooldown"))) ∧
    (has_replied_to_tweet cfg now hist item = false →
      is_author_on_cooldown cfg now hist author = false →
      cfg.max_replies_per_hour ≤ hour_count now hist →
      check_tweet_eligibility cfg now hist item author =
        (false, some ("Hourly limit reached: " ++ toString (hour_count now hist)
          ++ "/" ++ toString cfg.max_replies_per_hour))) ∧
    (has_replied_to_tweet cfg now hist item = false →
      is_author_on_cooldown cfg now hist author = false →
      hour_count now hist < cfg.max_replies_per_hour →
      cfg.max_replies_per_day ≤ day_count now hist →
      check_tweet_eligibility cfg now hist item author =
        (false, some ("Daily limit reached: " ++ toString (day_count now hist)
          ++ "/" ++ toString cfg.max_replies_per_day))) ∧
    (has_replied_to_tweet cfg now hist item = false →
      is_author_on_cooldown cfg now hist author = false →
      hour_count now hist < cfg.max_replies_per_hour →
      day_count now hist < cfg.max_replies_per_day →
      check_tweet_eligibility cfg now hist item author = (true, none)) := by
  refine ⟨?_, ?_, ?_, ?_, ?_⟩
  · intro h1
    simp [check_tweet_eligibility, h1]
  · intro h1 h2
    simp [check_tweet_eligibility, h1, h2]
  · intro h1 h2 h3
    simp [check_tweet_eligibility, check_rate_limits, h1, h2, h3]
  · intro h1 h2 h3 h4
    simp [check_tweet_eligibility, check_rate_limits, h1, h2,
      Nat.not_le_of_lt h3, h4]
  · intro h1 h2 h3 h4
    simp [check_tweet_eligibility, check_rate_limits, h1, h2,
      Nat.not_le_of_lt h3, Nat.not_le_of_lt h4]

/-- A history of five same-hour records by five other authors (for the
hourly cap scenario of the C5 witness). -/
def hourFullHist : List RepliedTweet :=
  [⟨"t1", "b1", 100.5, "r"⟩, ⟨"t2", "b2", 100.5, "r"⟩,
    ⟨"t3", "b3", 100.5, "r"⟩, ⟨"t4", "b4", 100.5, "r"⟩,
    ⟨"t5", "b5", 100.5, "r"⟩]

/-- A history of twenty same-day (but not same-hour) records by other
authors (for the daily cap scenario of the C5 witness). -/
def dayFullHist : List RepliedTweet :=
  [⟨"d01", "b0", 90, "r"⟩, ⟨"d02", "b0", 90, "r"⟩, ⟨"d03", "b0", 90, "r"⟩,
    ⟨"d04", "b0", 90, "r"⟩, ⟨"d05", "b0", 90, "r"⟩, ⟨"d06", "b0", 90, "r"⟩,
    ⟨"d07", "b0", 90, "r"⟩, ⟨"d08", "b0", 90, "r"⟩, ⟨"d09", "b0", 90, "r"⟩,
    ⟨"d10", "b0", 90, "r"⟩, ⟨"d11", "b0", 90, "r"⟩, ⟨"d12", "b0", 90, "r"⟩,
    ⟨"d13", "b0", 90, "r"⟩, ⟨"d14", "b0", 90, "r"⟩, ⟨"d15", "b0", 90, "r"⟩,
    ⟨"d16", "b0", 90, "r"⟩, ⟨"d17", "b0", 90, "r"⟩, ⟨"d18", "b0", 90, "r"⟩,
    ⟨"d19", "b0", 90, "r"⟩, ⟨"d20", "b0", 90, "r"⟩]

/-- Witness for C5: one concrete scenario per check. -/
theorem check_order_first_failure_wins_witness :
    (check_tweet_eligibility ⟨7, 48, 5, 20⟩ 101 [⟨"t1", "a1", 100, "r"⟩]
        "t1" "zz" = (false, some "Already replied to tweet t1")) ∧
    (check_tweet_eligibility ⟨7, 48, 5, 20⟩ 101 [⟨"t1", "a1", 100, "r"⟩]
        "t9" "a1" = (false, some "Author @a1 on cooldown")) ∧
    (check_tweet_eligibility ⟨7, 48, 5, 20⟩ 101 hourFullHist "t9" "zz" =
      (false, some "Hourly limit reached: 5/5")) ∧
    (check_tweet_eligibility ⟨7, 1, 5, 20⟩ 101 dayFullHist "t9" "zz" =
      (false, some "Daily limit reached: 20/20")) ∧
    (check_tweet_eligibility ⟨7, 48, 5, 20⟩ 101 [] "t9" "zz" = (true, none)) := by
  have hhc : hour_count 101 hourFullHist = 5 := by
    norm_num [hour_count, hourFullHist]
  have hdc : day_count 101 dayFullHist = 20 := by
    norm_num [day_count, dayFullHist]
  have hdh : hour_count 101 dayFullHist = 0 := by
    norm_num [hour_count, dayFullHist]
  refine ⟨?_, ?_, ?_, ?_, ?_⟩
  · exact (check_order_first_failure_wins ⟨7, 48, 5, 20⟩ 101
      [⟨"t1", "a1", 100, "r"⟩] "t1" "zz").1
      (by norm_num [has_replied_to_tweet] <;> decide)
  · exact (check_order_first_failure_wins ⟨7, 48, 5, 20⟩ 101
      [⟨"t1", "a1", 100, "r"⟩] "t9" "a1").2.1
      (by norm_num [has_replied_to_tweet] <;> decide)
      (by norm_num [is_author_on_cooldown] <;> decide)
  · have := (check_order_first_failure_wins ⟨7, 48, 5, 20⟩ 101 hourFullHist
      "t9" "zz").2.2.1
      (by norm_num [has_replied_to_tweet, hourFullHist] <;> decide)
      (by norm_num [is_author_on_cooldown, hourFullHist] <;> decide)
      (by rw [hhc])
    rw [hhc] at this
    exact this
  · have := (check_order_first_failure_wins ⟨7, 1, 5, 20⟩ 101 dayFullHist
      "t9" "zz").2.2.2.1
      (by norm_num [has_replied_to_tweet, dayFullHist] <;> decide)
      (by norm_num [is_author_on_cooldown, dayFullHist] <;> decide)
      (by rw [hdh]; norm_num)
      (by rw [hdc])
    rw [hdc] at this
    exact this
  · exact (check_order_first_failure_wins ⟨7, 48, 5, 20⟩ 101 [] "t9"
      "zz").2.2.2.2
      (by simp [has_replied_to_tweet])
      (by simp [is_author_on_cooldown])
      (by simp [hour_count])
      (by simp [day_count])

/-- C7: a post whose text contains a critical-tier keyword
(case-insensitively) is classified `critical`; its tier index is never
worse than any other post's tier index (in particular one matching only a
medium keyword); and every analysed post's multiplier is exactly the fixed
lookup-table value of its tier. -/
theorem priority_critical_first_and_monotone (cfg : CommercialCfg)
    (post : SocialPost) (k : String) (hk : k ∈ cfg.priority_keywords.critical)
    (hmatch : subIn (lowerL k.data) (lowerL post.text.data) = true) :
    (analyze_post cfg post).priority = Tier.critical ∧
    (∀ post2 : SocialPost, priorityIndex (analyze_post cfg post).priority ≤
      priorityIndex (analyze_post cfg post2).priority) ∧
    (∀ post3 : SocialPost, (analyze_post cfg post3).multiplier =
      PRIORITY_MULTIPLIERS (analyze_post cfg post3).priority) := by
  have hne : (tierMatches cfg.priority_keywords.critical
      (lowerL post.text.data)).isEmpty = false := by
    have hkmem : k ∈ tierMatches cfg.priority_keywords.critical
        (lowerL post.text.data) := List.mem_filter.mpr ⟨hk, hmatch⟩
    cases hq : (tierMatches cfg.priority_keywords.critical
        (lowerL post.text.data)).isEmpty with
    | false => rfl
    | true =>
        rw [List.isEmpty_iff] at hq
        rw [hq] at hkmem
        exact absurd hkmem (List.not_mem_nil k)
  have hcrit : (analyze_post cfg post).priority = Tier.critical := by
    simp [analyze_post, check_priority_keywords, hne]
  refine ⟨hcrit, ?_, ?_⟩
  · intro post2
    rw [hcrit]
    exact Nat.zero_le _
  · intro post3
    rcases hcp : check_priority_keywords cfg (lowerL post3.text.data) with ⟨p, m⟩
    simp [analyze_post, hcp]

/-- A concrete commercial configuration for the C7 and C10 witnesses. -/
def testCommercialCfg : CommercialCfg :=
  { priority_keywords :=
      { critical := ["imposter syndrome", "self-doubt"]
        high := ["brand clarity", "positioning"]
        medium_high := ["growth frustration"]
        medium := ["struggling"] }
    profile_indicators :=
      { entrepreneur_keywords := ["founder", "entrepreneur"]
        target_stage := ["first year"] } }

/-- A concrete post mentioning a critical keyword in mixed case. -/
def criticalPost : SocialPost :=
  { id := "p1"
    platform := Platform.twitter
    text := "Battling Imposter Syndrome again today"
    author :=
      { username := "sarah_founder"
        display_name := "Sarah"
        followers_count := 1200
        is_verified := false
        bio := some "startup founder" }
    created_at := 96
    metrics := { likes := 15, replies := 5, shares := 2, impressions := 0 }
    language := "en"
    commercial_signals := none
    rejection_reason := none }

/-- Witness for C7 at the concrete post and configuration. -/
theorem priority_critical_first_and_monotone_witness :
    (analyze_post testCommercialCfg criticalPost).priority = Tier.critical ∧
    (analyze_post testCommercialCfg criticalPost).multiplier =
      PRIORITY_MULTIPLIERS (analyze_post testCommercialCfg criticalPost).priority := by
  have h := priority_critical_first_and_monotone testCommercialCfg criticalPost
    "imposter syndrome" (by decide) (by decide)
  exact ⟨h.1, h.2.2 criticalPost⟩

/-- C10: with the default minimum priority `medium`, the batch filter of
the Priority Filter rejects exactly the posts analysed as `baseline`,
passes the rest, and attaches no rejection reason to rejected posts (the
attached analysis leaves `rejection_reason` untouched). -/
theorem priority_batch_drops_baseline (cfg : CommercialCfg)
    (posts : List SocialPost) :
    (filter_posts_batch cfg posts Tier.medium).2 =
      (posts.filter (fun p =>
        (analyze_post cfg p).priority == Tier.baseline)).map (attachSignals cfg) ∧
    (filter_posts_batch cfg posts Tier.medium).1 =
      (posts.filter (fun p =>
        !((analyze_post cfg p).priority == Tier.baseline))).map (attachSignals cfg) ∧
    (∀ p : SocialPost, (attachSignals cfg p).rejection_reason =
      p.rejection_reason) := by
  have hkey : ∀ t : Tier,
      (priorityIndex t ≤ priorityIndex Tier.medium) ↔ (t == Tier.baseline) = false := by
    intro t
    cases t <;> simp [priorityIndex]
  refine ⟨?_, ?_, fun p => rfl⟩
  · induction posts with
    | nil => simp [filter_posts_batch]
    | cons p ps ih =>
        by_cases hb : (analyze_post cfg p).priority = Tier.baseline
        · simp [filter_posts_batch, hb, priorityIndex, ih]
        · have : priorityIndex (analyze_post cfg p).priority ≤
              priorityIndex Tier.medium := by
            rw [hkey]
            simp [hb]
          simp [filter_posts_batch, this, hb, ih]
  · induction posts with
    | nil => simp [filter_posts_batch]
    | cons p ps ih =>
        by_cases hb : (analyze_post cfg p).priority = Tier.baseline
        · simp [filter_posts_batch, hb, priorityIndex, ih]
        · have : priorityIndex (analyze_post cfg p).priority ≤
              priorityIndex Tier.medium := by
            rw [hkey]
            simp [hb]
          simp [filter_posts_batch, this, hb, ih]

/-- Unfolding step: a valid attempt returns immediately with that attempt
number and the cost accumulated through it. -/
theorem gen_loop_valid_now (cfg : VoiceCfg) (platform : Option Platform)
    (llm : Nat → LLMResp) (ma rem attempt : Nat) (total : ℚ)
    (h : (validate cfg (attemptText llm attempt) platform).is_valid = true) :
    gen_loop cfg platform llm ma (rem + 1) attempt total =
      Except.ok ⟨attemptText llm attempt,
        validate cfg (attemptText llm attempt) platform,
        attempt, total + (llm attempt).cost_usd⟩ := by
  simp [gen_loop, h]

/-- Unfolding step: an invalid attempt recurses with the next attempt
number and the accumulated cost. -/
theorem gen_loop_invalid_step (cfg : VoiceCfg) (platform : Option Platform)
    (llm : Nat → LLMResp) (ma rem attempt : Nat) (total : ℚ)
    (h : (validate cfg (attemptText llm attempt) platform).is_valid = false) :
    gen_loop cfg platform llm ma (rem + 1) attempt total =
      gen_loop cfg platform llm ma rem (attempt + 1)
        (total + (llm attempt).cost_usd) := by
  simp [gen_loop, h]

/-- The loop returns on the first valid attempt, with the summed cost of
every attempt made. -/
theorem gen_loop_success (cfg : VoiceCfg) (platform : Option Platform)
    (llm : Nat → LLMResp) (ma : Nat) :
    ∀ (k rem attempt : Nat) (total : ℚ), k < rem →
    (∀ i, attempt ≤ i → i < attempt + k →
      (validate cfg (attemptText llm i) platform).is_valid = false) →
    (validate cfg (attemptText llm (attempt + k)) platform).is_valid = true →
    gen_loop cfg platform llm ma rem attempt total =
      Except.ok ⟨attemptText llm (attempt + k),
        validate cfg (attemptText llm (attempt + k)) platform,
        attempt + k, total + costFrom llm attempt (k + 1)⟩ := by
  intro k
  induction k with
  | zero =>
      intro rem attempt total hk hinv hval
      obtain ⟨r, rfl⟩ : ∃ r, rem = r + 1 := ⟨rem - 1, by omega⟩
      simp only [Nat.add_zero] at hval
      rw [gen_loop_valid_now cfg platform llm ma r attempt total hval]
      simp [costFrom]
  | succ k ih =>
      intro rem attempt total hk hinv hval
      obtain ⟨r, rfl⟩ : ∃ r, rem = r + 1 := ⟨rem - 1, by omega⟩
      have h0 : (validate cfg (attemptText llm attempt) platform).is_valid
          = false := hinv attempt (Nat.le_refl _) (by omega)
      rw [gen_loop_invalid_step cfg platform llm ma r attempt total h0]
      have hsw : attempt + 1 + k = attempt + (k + 1) := by omega
      have := ih r (attempt + 1) (total + (llm attempt).cost_usd) (by omega)
        (fun i h1 h2 => hinv i (by omega) (by omega))
        (by rw [hsw]; exact hval)
      rw [this, hsw]
      have hc : total + costFrom llm attempt (k + 1 + 1) =
          total + (llm attempt).cost_usd + costFrom llm (attempt + 1) (k + 1) := by
        show total + ((llm attempt).cost_usd + costFrom llm (attempt + 1) (k + 1)) = _
        ring
      rw [hc]

/-- The loop raises the explicit exhaustion error when every remaining
attempt is invalid. -/
theorem gen_loop_exhaust (cfg : VoiceCfg) (platform : Option Platform)
    (llm : Nat → LLMResp) (ma : Nat) :
    ∀ (rem attempt : Nat) (total : ℚ),
    (∀ i, attempt ≤ i → i < attempt + rem →
      (validate cfg (attemptText llm i) platform).is_valid = false) →
    gen_loop cfg platform llm ma rem attempt total =
      Except.error ("Failed to generate valid reply after " ++ toString ma
        ++ " attempts") := by
  intro rem
  induction rem with
  | zero => intro attempt total hinv; simp [gen_loop]
  | succ r ih =>
      intro attempt total hinv
      have h0 : (validate cfg (attemptText llm attempt) platform).is_valid
          = false := hinv attempt (Nat.le_refl _) (by omega)
      rw [gen_loop_invalid_step cfg platform llm ma r attempt total h0]
      exact ih (attempt + 1) _ (fun i h1 h2 => hinv i (by omega) (by omega))

/-- Any draft the loop returns validated successfully. -/
theorem gen_loop_sound (cfg : VoiceCfg) (platform : Option Platform)
    (llm : Nat → LLMResp) (ma : Nat) :
    ∀ (rem attempt : Nat) (total : ℚ) (r : DraftResult),
    gen_loop cfg platform llm ma rem attempt total = Except.ok r →
    (validate cfg r.reply_text platform).is_valid = true := by
  intro rem
  induction rem with
  | zero => intro attempt total r h; simp [gen_loop] at h
  | succ rr ih =>
      intro attempt total r h
      rw [gen_loop] at h
      split at h
      · rename_i hv
        obtain rfl : (⟨attemptText llm attempt,
            validate cfg (attemptText llm attempt) platform, attempt,
            total + (llm attempt).cost_usd⟩ : DraftResult) = r :=
          Except.ok.inj h
        exact hv
      · exact ih (attempt + 1) (total + (llm attempt).cost_usd) r h

/-- C3: the generation loop returns on the first attempt the Compliance
Validator accepts, with that attempt number and the summed cost of every
attempt made; when all `max_attempts` attempts are invalid it raises the
explicit could-not-produce-compliant-draft error; and it never returns
text that fails validation. -/
theorem generate_reply_first_valid (cfg : VoiceCfg)
    (platform : Option Platform) (llm : Nat → LLMResp) (max_attempts : Nat)
    (hma : 1 ≤ max_attempts) :
    (∀ j, 1 ≤ j → j ≤ max_attempts →
      (∀ i, 1 ≤ i → i < j →
        (validate cfg (attemptText llm i) platform).is_valid = false) →
      (validate cfg (attemptText llm j) platform).is_valid = true →
      generate_reply cfg platform llm max_attempts =
        Except.ok ⟨attemptText llm j,
          validate cfg (attemptText llm j) platform, j, costFrom llm 1 j⟩) ∧
    ((∀ i, 1 ≤ i → i ≤ max_attempts →
        (validate cfg (attemptText llm i) platform).is_valid = false) →
      generate_reply cfg platform llm max_attempts =
        Except.error ("Failed to generate valid reply after "
          ++ toString max_attempts ++ " attempts")) ∧
    (∀ r, generate_reply cfg platform llm max_attempts = Except.ok r →
      (validate cfg r.reply_text platform).is_valid = true) := by
  refine ⟨?_, ?_, ?_⟩
  · intro j hj1 hj2 hinv hval
    obtain ⟨k, rfl⟩ : ∃ k, j = 1 + k := ⟨j - 1, by omega⟩
    unfold generate_reply
    have hc : (1 : Nat) + k = k + 1 := by omega
    rw [gen_loop_success cfg platform llm max_attempts k max_attempts 1 0
      (by omega) (fun i h1 h2 => hinv i h1 h2) hval]
    rw [zero_add, hc]
  · intro hinv
    unfold generate_reply
    exact gen_loop_exhaust cfg platform llm max_attempts max_attempts 1 0
      (fun i h1 h2 => hinv i h1 (by omega))
  · intro r h
    exact gen_loop_sound cfg platform llm max_attempts max_attempts 1 0 r h

/-- A concrete LLM oracle for the C3 witness: attempt 1 returns text with
an exclamation mark, later attempts return clean text. -/
def llmW : Nat → LLMResp :=
  fun i => if i == 1 then ⟨"Great!", 1 / 100⟩ else ⟨"Quite right", 2 / 100⟩

/-- Witness for C3: the oracle above yields the clean attempt-2 draft with
the summed cost of both attempts. -/
theorem generate_reply_first_valid_witness :
    generate_reply testVoiceCfg none llmW 3 =
      Except.ok ⟨attemptText llmW 2, validate testVoiceCfg (attemptText llmW 2) none,
        2, costFrom llmW 1 2⟩ :=
  (generate_reply_first_valid testVoiceCfg none llmW 3 (by norm_num)).1 2
    (by norm_num) (by norm_num)
    (fun i h1 h2 => by
      have hi : i = 1 := by omega
      subst hi
      decide)
    (by decide)

/-- Rounding to two decimals keeps a value inside [0, 100]. -/
theorem round2_bounds (q : ℚ) (h0 : 0 ≤ q) (h1 : q ≤ 100) :
    0 ≤ round2 q ∧ round2 q ≤ 100 := by
  have hfl : (0 : ℤ) ≤ ⌊q * 100 + 1 / 2⌋ :=
    Int.le_floor.mpr (by push_cast; linarith)
  have hfu : (⌊q * 100 + 1 / 2⌋ : ℚ) ≤ q * 100 + 1 / 2 := Int.floor_le _
  have hlt : (⌊q * 100 + 1 / 2⌋ : ℚ) < 10001 := by linarith
  have hle : ⌊q * 100 + 1 / 2⌋ ≤ 10000 := by
    have hz : ⌊q * 100 + 1 / 2⌋ < 10001 := by exact_mod_cast hlt
    omega
  constructor
  · unfold round2
    exact div_nonneg (by exact_mod_cast hfl) (by norm_num)
  · unfold round2
    rw [div_le_iff (by norm_num : (0 : ℚ) < 100)]
    have : ((⌊q * 100 + 1 / 2⌋ : ℤ) : ℚ) ≤ 10000 := by exact_mod_cast hle
    linarith

/-- The ratio part of the velocity score is non-negative. -/
theorem velocity_ratio_part_nonneg (log10 : ℚ → ℚ) (post : SocialPost)
    (hlog : ∀ x : ℚ, 1 ≤ x → 0 ≤ log10 x) :
    0 ≤ velocity_ratio_part log10 post := by
  unfold velocity_ratio_part
  split_ifs with h1 h2
  · exact le_min (by positivity) (by norm_num)
  · refine le_min ?_ (by norm_num)
    have hx : (1 : ℚ) ≤ (post.metrics.likes : ℚ) + 1 := by
      have : (0 : ℚ) ≤ (post.metrics.likes : ℚ) := Nat.cast_nonneg _
      linarith
    exact mul_nonneg (hlog _ hx) (by norm_num)
  · exact le_refl 0

/-- The reply part of the velocity score is non-negative. -/
theorem velocity_reply_part_nonneg (post : SocialPost) :
    0 ≤ velocity_reply_part post := by
  unfold velocity_reply_part
  split_ifs
  · exact le_min (by positivity) (by norm_num)
  · exact le_refl 0

/-- The freshness bonus is non-negative. -/
theorem velocity_freshness_nonneg (now : ℚ) (post : SocialPost) :
    0 ≤ velocity_freshness now post := by
  simp only [velocity_freshness]
  split_ifs <;> norm_num

/-- The velocity component lies in [0, 100]. -/
theorem score_engagement_velocity_bounds (log10 : ℚ → ℚ) (now : ℚ)
    (post : SocialPost) (hlog : ∀ x : ℚ, 1 ≤ x → 0 ≤ log10 x) :
    0 ≤ score_engagement_velocity log10 now post ∧
    score_engagement_velocity log10 now post ≤ 100 :=
  ⟨le_min (add_nonneg (add_nonneg (velocity_ratio_part_nonneg log10 post hlog)
      (velocity_reply_part_nonneg post)) (velocity_freshness_nonneg now post))
    (by norm_num), min_le_right _ _⟩

/-- The follower part of the authority score is non-negative. -/
theorem authority_follower_part_nonneg (log10 : ℚ → ℚ) (post : SocialPost)
    (hlog : ∀ x : ℚ, 1 ≤ x → 0 ≤ log10 x) :
    0 ≤ authority_follower_part log10 post := by
  unfold authority_follower_part
  split_ifs with h1 h2
  · norm_num
  · refine le_min ?_ (by norm_num)
    have hx : (1 : ℚ) ≤ (post.author.followers_count : ℚ) + 1 := by
      have : (0 : ℚ) ≤ (post.author.followers_count : ℚ) := Nat.cast_nonneg _
      linarith
    exact mul_nonneg (hlog _ hx) (by norm_num)
  · exact le_refl 0

/-- The authority component lies in [0, 100]. -/
theorem score_user_authority_bounds (log10 : ℚ → ℚ) (post : SocialPost)
    (hlog : ∀ x : ℚ, 1 ≤ x → 0 ≤ log10 x) :
    0 ≤ score_user_authority log10 post ∧
    score_user_authority log10 post ≤ 100 := by
  refine ⟨le_min ?_ (by norm_num), min_le_right _ _⟩
  have h2 : 0 ≤ (if post.author.is_verified then (20 : ℚ) else 0) := by
    split_ifs <;> norm_num
  exact add_nonneg (authority_follower_part_nonneg log10 post hlog) h2

/-- The timing component lies in [0, 100]. -/
theorem score_timing_bounds (cfg : ScoringCfg) (now : ℚ) (post : SocialPost) :
    0 ≤ score_timing cfg now post ∧ score_timing cfg now post ≤ 100 := by
  refine ⟨le_min ?_ (by norm_num), min_le_right _ _⟩
  have h1 : 0 ≤ timing_window_part now post := by
    simp only [timing_window_part]
    split_ifs <;> norm_num
  have h2 : 0 ≤ timing_active_part cfg post := by
    unfold timing_active_part
    split_ifs <;> norm_num
  exact add_nonneg h1 h2

/-- The discussion component lies in [0, 100]. -/
theorem score_discussion_opportunity_bounds (post : SocialPost) :
    0 ≤ score_discussion_opportunity post ∧
    score_discussion_opportunity post ≤ 100 := by
  refine ⟨le_min ?_ (by norm_num), min_le_right _ _⟩
  have h0 : 0 ≤ (if subIn ['?'] post.text.data then (30 : ℚ) else 0) := by
    split_ifs <;> norm_num
  have h1 : 0 ≤ discussion_length_part post := by
    unfold discussion_length_part
    split_ifs <;> norm_num
  have h2 : 0 ≤ discussion_reply_part post := by
    unfold discussion_reply_part
    split_ifs <;> norm_num
  exact add_nonneg (add_nonneg h0 h1) h2

/-- C6: the total score is within [0, 100], equals the weighted component
sum times the priority multiplier clamped at 100 (then rounded to two
decimals, which preserves the range), and scoring is a pure function of
the post, the configuration and the instant: re-scoring the same post at
the same instant yields the identical result. -/
theorem score_post_total_bounds (log10 : ℚ → ℚ) (cfg : ScoringCfg) (now : ℚ)
    (post : SocialPost)
    (hlog : ∀ x : ℚ, 1 ≤ x → 0 ≤ log10 x)
    (hw1 : 0 ≤ cfg.weights.engagement_velocity)
    (hw2 : 0 ≤ cfg.weights.user_authority)
    (hw3 : 0 ≤ cfg.weights.timing_score)
    (hw4 : 0 ≤ cfg.weights.discussion_opportunity)
    (hmul : ∀ s, post.commercial_signals = some s → 0 ≤ s.multiplier) :
    0 ≤ (score_post log10 cfg now post).total_score ∧
    (score_post log10 cfg now post).total_score ≤ 100 ∧
    (score_post log10 cfg now post).total_score =
      round2 (min (weightedComponentSum log10 cfg now post *
        effectiveMultiplier post) 100) ∧
    score_post log10 cfg now post = score_post log10 cfg now post := by
  have hm : 0 ≤ effectiveMultiplier post := by
    unfold effectiveMultiplier
    cases h : post.commercial_signals with
    | none => norm_num
    | some s => exact hmul s h
  have hws : 0 ≤ weightedComponentSum log10 cfg now post :=
    add_nonneg (add_nonneg (add_nonneg
      (mul_nonneg (score_engagement_velocity_bounds log10 now post hlog).1 hw1)
      (mul_nonneg (score_user_authority_bounds log10 post hlog).1 hw2))
      (mul_nonneg (score_timing_bounds cfg now post).1 hw3))
      (mul_nonneg (score_discussion_opportunity_bounds post).1 hw4)
  have htot0 : 0 ≤ min (weightedComponentSum log10 cfg now post *
      effectiveMultiplier post) 100 :=
    le_min (mul_nonneg hws hm) (by norm_num)
  have htot1 : min (weightedComponentSum log10 cfg now post *
      effectiveMultiplier post) 100 ≤ 100 := min_le_right _ _
  have hr := round2_bounds _ htot0 htot1
  exact ⟨hr.1, hr.2, rfl, rfl⟩

/-- Witness for C6 at a concrete post, configuration and instant. -/
theorem score_post_total_bounds_witness :
    0 ≤ (score_post (fun _ => 0)
        ⟨⟨2 / 5, 3 / 10, 1 / 5, 1 / 10⟩, 50, 9, 17⟩ 100 criticalPost).total_score ∧
    (score_post (fun _ => 0)
        ⟨⟨2 / 5, 3 / 10, 1 / 5, 1 / 10⟩, 50, 9, 17⟩ 100 criticalPost).total_score
      ≤ 100 :=
  let h := score_post_total_bounds (fun _ => 0)
    ⟨⟨2 / 5, 3 / 10, 1 / 5, 1 / 10⟩, 50, 9, 17⟩ 100 criticalPost
    (fun _ _ => le_refl 0) (by norm_num) (by norm_num) (by norm_num)
    (by norm_num) (fun s h => by simp [criticalPost] at h)
  ⟨h.1, h.2.1⟩
